import Mathlib

/-!
Verification of the sole-resolver resolution pipeline.

Shallow embedding of the JavaScript sources:
- `src/utils/validation.js`  : `validateSkuQuery`, `calculateConfidence`
- `src/db/cache.js`          : `getCached`, `setCache` (in-memory Map + TTL)
- `src/classifiers/sku-classifier.js` (in `src/routes/ocr.js`) : `classifySku`
- `src/services/normalizer.js` : `normalizeResult` and its extractors
- `src/resolvers/index.js`   : `resolve` orchestrator

JS numbers are modelled as rationals, JS strings as Lean strings with
ASCII case semantics (all string literals in the program are ASCII).
Nullable values are `Option`; JS string truthiness (null/"" falsy) is
modelled explicitly.  Wall-clock reads (`Date.now()`) are passed as
explicit integer parameters, one per call site on an execution path.
-/

/-! ## Character and string helpers (JS semantics, ASCII fragment) -/

/-- ASCII uppercasing, the fragment of JS `toUpperCase` exercised here. -/
def upAscii (c : Char) : Char :=
  if 'a' ≤ c ∧ c ≤ 'z' then Char.ofNat (c.toNat - 32) else c

/-- JS `\s` / `trim` whitespace, ASCII fragment. -/
def jsIsSpace (c : Char) : Bool :=
  c == ' ' || c == '\t' || c == '\n' || c == '\r' || c == '\x0b' || c == '\x0c'

/-- JS `String.prototype.trim`: strip leading and trailing whitespace. -/
def jsTrimChars (l : List Char) : List Char :=
  ((l.dropWhile jsIsSpace).reverse.dropWhile jsIsSpace).reverse

/-- `s.toUpperCase().trim()` as used by the cache key normalization. -/
def jsUpperTrim (s : String) : String :=
  String.mk (jsTrimChars (s.toList.map upAscii))

/-- `s.trim()` on strings. -/
def jsTrimStr (s : String) : String :=
  String.mk (jsTrimChars s.toList)

def isDigitCh (c : Char) : Bool := '0' ≤ c && c ≤ '9'

def isUpperCh (c : Char) : Bool := 'A' ≤ c && c ≤ 'Z'

def isLowerCh (c : Char) : Bool := 'a' ≤ c && c ≤ 'z'

/-- `[A-Za-z]`, i.e. `[A-Z]` under the `/i` flag. -/
def isLetterI (c : Char) : Bool := isUpperCh c || isLowerCh c

/-- `[A-Z0-9]` under the `/i` flag. -/
def isAlnumI (c : Char) : Bool := isLetterI c || isDigitCh c

/-- Case-insensitive match of `c` against the uppercase letter `u`. -/
def ciEqCh (c u : Char) : Bool := upAscii c == u

/-- The apostrophe character (U+0027). -/
def apos : Char := Char.ofNat 39

/-- `l.startsWith n` on char lists. -/
def startsWithL : List Char → List Char → Bool
  | _, [] => true
  | [], _ :: _ => false
  | a :: h, b :: n => a == b && startsWithL h n

/-- JS `String.prototype.includes`: `n` occurs as a contiguous substring of `h`. -/
def infixL : List Char → List Char → Bool
  | [], n => n.isEmpty
  | l@(_ :: t), n => startsWithL l n || infixL t n

/-- JS string truthiness of a nullable string: null and "" are falsy. -/
def jsTruthyOpt (o : Option String) : Bool :=
  match o with
  | some s => s != ""
  | none => false

/-- JS `a || b` on nullable strings (null/"" falsy). -/
def jsOrStr (a b : Option String) : Option String :=
  match a with
  | some s => if s = "" then b else some s
  | none => b

/-- JS `a || ''` on a nullable string. -/
def jsOrEmpty (a : Option String) : String :=
  match a with
  | some s => s
  | none => ""

/-- JS `a || d` with a non-empty default string `d`. -/
def jsOrDefault (a : Option String) (d : String) : String :=
  match a with
  | some s => if s = "" then d else s
  | none => d

/-- `Math.round(q * 100) / 100` — JS `Math.round` is `⌊x + 1/2⌋`. -/
def jsRound2 (q : ℚ) : ℚ := ((⌊q * 100 + 1/2⌋ : ℤ) : ℚ) / 100

/-! ## Confidence scorer (`src/utils/confidence.js`, `calculateConfidence`) -/

/-- The argument object of `calculateConfidence` (all call sites in the
program pass every field, so the JS destructuring defaults never fire). -/
structure ConfidenceInputs where
  patternConfidence : ℚ
  source : String
  exactSkuMatch : Bool
  hasBrand : Bool
  hasModel : Bool
  hasColorway : Bool
  fromCache : Bool
deriving DecidableEq

/-- The `sourceScores` table with the `|| sourceScores.unknown` fallback. -/
def sourceScore (s : String) : ℚ :=
  if s = "cache" then 15/100
  else if s = "kicksdb" then 15/100
  else if s = "sneaks" then 12/100
  else if s = "google" then 8/100
  else 2/100

/-- `calculateConfidence` from `src/utils/confidence.js`. -/
def calculateConfidence (i : ConfidenceInputs) : ℚ :=
  let score : ℚ :=
    i.patternConfidence * (3/10)
    + (if i.exactSkuMatch then 25/100 else 0)
    + sourceScore i.source
    + (if i.hasBrand then 1/10 else 0)
    + (if i.hasModel then 1/10 else 0)
    + (if i.hasColorway then 1/10 else 0)
    + (if i.fromCache then 5/100 else 0)
  min 1 (max 0 score)

/-! ## Query validation (`src/utils/validation.js`, `validateSkuQuery`) -/

structure ValidationResult where
  valid : Bool
  error : Option String
  normalized : Option String
deriving DecidableEq

/-- `[A-Za-z0-9\-\s]`, the characters allowed by `validateSkuQuery`. -/
def allowedQueryChar (c : Char) : Bool :=
  isLetterI c || isDigitCh c || c == '-' || jsIsSpace c

/-- `/^[0-9]+$/.test l` (requires a non-empty all-digit string). -/
def jsAllDigits (l : List Char) : Bool :=
  !l.isEmpty && l.all isDigitCh

/-- `validateSkuQuery` from `src/utils/validation.js`. -/
def validateSkuQuery (query : String) : ValidationResult :=
  if query = "" then
    ⟨false, some "Query is required and must be a string", none⟩
  else
    let trimmed := jsTrimChars query.toList
    if trimmed.length < 4 then
      ⟨false, some "Query too short (minimum 4 characters)", none⟩
    else if trimmed.length > 20 then
      ⟨false, some "Query too long (maximum 20 characters)", none⟩
    else if jsAllDigits trimmed && trimmed.length < 6 then
      ⟨false, some "Query appears to be invalid (too few characters)", none⟩
    else if trimmed.any (fun c => !allowedQueryChar c) then
      ⟨false, some "Query contains invalid characters", none⟩
    else
      ⟨true, none, some (String.mk ((trimmed.map upAscii).filter (fun c => !jsIsSpace c)))⟩

/-! ## Cache store (`src/db/cache.js`)

The JS cache is a `Map` from normalized key to `{ data, timestamp }`,
polymorphic in the stored `data` object.  We model the `Map` as an
association list with `Map`-faithful operations: `set` replaces in
place (preserving insertion order) or appends, `delete` removes the
unique entry for a key. -/

structure CacheEntry (α : Type) where
  data : α
  timestamp : Int
deriving DecidableEq

abbrev CacheMap (α : Type) := List (String × CacheEntry α)

def lookupKV {α : Type} : CacheMap α → String → Option (CacheEntry α)
  | [], _ => none
  | (k, e) :: rest, key => if k = key then some e else lookupKV rest key

def setKV {α : Type} : CacheMap α → String → CacheEntry α → CacheMap α
  | [], key, e => [(key, e)]
  | (k, e0) :: rest, key, e =>
    if k = key then (key, e) :: rest else (k, e0) :: setKV rest key e

def eraseKV {α : Type} : CacheMap α → String → CacheMap α
  | [], _ => []
  | (k, e) :: rest, key => if k = key then rest else (k, e) :: eraseKV rest key

/-- `30 * 24 * 60 * 60 * 1000` ms, the hard-coded 30-day TTL. -/
def ttlMs : Int := 30 * 24 * 60 * 60 * 1000

/-- The object returned by a cache hit: `{ ...entry.data, fromCache: true }`. -/
structure CacheHit (α : Type) where
  data : α
  fromCache : Bool
deriving DecidableEq

/-- `getCached` from `src/db/cache.js`.  `now` is the `Date.now()` read
inside the call.  Returns the JS return value together with the cache
state after the call (an expired entry is deleted on read). -/
def getCached {α : Type} (sku : String) (now : Int) (cache : CacheMap α) :
    Option (CacheHit α) × CacheMap α :=
  if sku = "" then (none, cache)
  else
    let normalized := jsUpperTrim sku
    match lookupKV cache normalized with
    | some entry =>
      if now - entry.timestamp < ttlMs then (some ⟨entry.data, true⟩, cache)
      else (none, eraseKV cache normalized)
    | none => (none, cache)

/-- `setCache` from `src/db/cache.js`; `now` is its `Date.now()` read. -/
def setCache {α : Type} (sku : String) (data : α) (now : Int) (cache : CacheMap α) :
    CacheMap α :=
  if sku = "" then cache
  else setKV cache (jsUpperTrim sku) ⟨data, now⟩

/-- A record type carrying an `accessCount` field, used to observe that the
cache stores and returns `data` verbatim without touching any counter. -/
structure CountedRec where
  name : String
  accessCount : Int
deriving DecidableEq

/-! ## SKU classifier (`src/classifiers/sku-classifier.js`)

Each `BRAND_PATTERNS` regex is fully anchored (`^...$`) and built from
character classes with counted repetition, so we embed each one as the
existence of a segment decomposition of the candidate string
(`matchSegs`), which is exactly the language of such a regex. -/

/-- Consume exactly `n` characters satisfying `p`; return the rest. -/
def takeCls (p : Char → Bool) : Nat → List Char → Option (List Char)
  | 0, l => some l
  | _ + 1, [] => none
  | n + 1, c :: l => if p c then takeCls p n l else none

/-- Anchored match of a sequence of segments `(lo, hi, class)`: the whole
input is a concatenation of runs, the `i`-th of a length in `[lo, hi]`
all of whose characters satisfy the `i`-th class. -/
def matchSegs : List (Nat × Nat × (Char → Bool)) → List Char → Bool
  | [], l => l.isEmpty
  | (lo, hi, p) :: rest, l =>
    (List.range (hi + 1 - lo)).any fun d =>
      match takeCls p (lo + d) l with
      | some l2 => matchSegs rest l2
      | none => false

def isDashCh (c : Char) : Bool := c == '-'

/-- `/^[A-Z]{2}[0-9]{4}-[0-9]{3}$/i` (Nike, standard). -/
def nike1P (l : List Char) : Bool :=
  matchSegs [(2, 2, isLetterI), (4, 4, isDigitCh), (1, 1, isDashCh), (3, 3, isDigitCh)] l

/-- `/^[0-9]{6}-[0-9]{3}$/` (Nike, older). -/
def nike2P (l : List Char) : Bool :=
  matchSegs [(6, 6, isDigitCh), (1, 1, isDashCh), (3, 3, isDigitCh)] l

/-- `/^[A-Z]{3}[0-9]{3}-[0-9]{3}$/i` (Nike, alternative). -/
def nike3P (l : List Char) : Bool :=
  matchSegs [(3, 3, isLetterI), (3, 3, isDigitCh), (1, 1, isDashCh), (3, 3, isDigitCh)] l

/-- The two-letter prefixes of the Jordan pattern alternation. -/
def jordanPrefPairs : List (Char × Char) :=
  [('C', 'T'), ('C', 'Z'), ('D', 'M'), ('D', 'D'), ('D', 'C'), ('D', 'Q'),
   ('D', 'R'), ('D', 'O'), ('D', 'N'), ('F', 'Q'), ('F', 'D')]

/-- `/^(CT|CZ|DM|DD|DC|DQ|DR|DO|DN|FQ|FD)[0-9]{4}-[0-9]{3}$/i` (Jordan). -/
def jordanP (l : List Char) : Bool :=
  match l with
  | a :: b :: rest =>
    jordanPrefPairs.any (fun pr => ciEqCh a pr.1 && ciEqCh b pr.2) &&
      matchSegs [(4, 4, isDigitCh), (1, 1, isDashCh), (3, 3, isDigitCh)] rest
  | _ => false

/-- `/^[A-Z]{2}[0-9]{4}$/i` (Adidas, standard). -/
def adidas1P (l : List Char) : Bool :=
  matchSegs [(2, 2, isLetterI), (4, 4, isDigitCh)] l

/-- `/^[A-Z][0-9]{5}$/i` (Adidas, alternative). -/
def adidas2P (l : List Char) : Bool :=
  matchSegs [(1, 1, isLetterI), (5, 5, isDigitCh)] l

/-- The two-letter prefixes of the Yeezy-style Adidas pattern. -/
def adidasPrefPairs : List (Char × Char) :=
  [('G', 'W'), ('G', 'X'), ('G', 'Y'), ('G', 'Z'), ('H', 'P'), ('H', 'Q'),
   ('H', 'R'), ('H', 'S'), ('H', 'T'), ('I', 'D'), ('I', 'E'), ('I', 'F'),
   ('I', 'G'), ('I', 'H')]

/-- `/^(GW|GX|GY|GZ|HP|HQ|HR|HS|HT|ID|IE|IF|IG|IH)[0-9]{4}$/i` (Yeezy style). -/
def adidas3P (l : List Char) : Bool :=
  match l with
  | a :: b :: rest =>
    adidasPrefPairs.any (fun pr => ciEqCh a pr.1 && ciEqCh b pr.2) &&
      matchSegs [(4, 4, isDigitCh)] rest
  | _ => false

/-- `/^M[0-9]{3,4}[A-Z]{2,3}[0-9]?$/i` (New Balance, men's). -/
def nbMP (l : List Char) : Bool :=
  matchSegs [(1, 1, fun c => ciEqCh c 'M'), (3, 4, isDigitCh), (2, 3, isLetterI),
             (0, 1, isDigitCh)] l

/-- `/^W[0-9]{3,4}[A-Z]{2,3}[0-9]?$/i` (New Balance, women's). -/
def nbWP (l : List Char) : Bool :=
  matchSegs [(1, 1, fun c => ciEqCh c 'W'), (3, 4, isDigitCh), (2, 3, isLetterI),
             (0, 1, isDigitCh)] l

/-- `/^U[0-9]{3,4}[A-Z]{2,3}[0-9]?$/i` (New Balance, unisex). -/
def nbUP (l : List Char) : Bool :=
  matchSegs [(1, 1, fun c => ciEqCh c 'U'), (3, 4, isDigitCh), (2, 3, isLetterI),
             (0, 1, isDigitCh)] l

/-- `/^ML[0-9]{3,4}[A-Z]{2,3}$/i` (New Balance, lifestyle). -/
def nbMLP (l : List Char) : Bool :=
  matchSegs [(1, 1, fun c => ciEqCh c 'M'), (1, 1, fun c => ciEqCh c 'L'),
             (3, 4, isDigitCh), (2, 3, isLetterI)] l

/-- `/^[0-9]{6}-[0-9]{2}$/` (Puma). -/
def puma1P (l : List Char) : Bool :=
  matchSegs [(6, 6, isDigitCh), (1, 1, isDashCh), (2, 2, isDigitCh)] l

/-- `/^[0-9]{3}-[0-9]{5}$/` (Puma, alternative). -/
def puma2P (l : List Char) : Bool :=
  matchSegs [(3, 3, isDigitCh), (1, 1, isDashCh), (5, 5, isDigitCh)] l

/-- `/^[0-9]{6}C$/i` (Converse). -/
def conv1P (l : List Char) : Bool :=
  matchSegs [(6, 6, isDigitCh), (1, 1, fun c => ciEqCh c 'C')] l

/-- `/^[A-Z][0-9]{4,5}C$/i` (Converse, alternative). -/
def conv2P (l : List Char) : Bool :=
  matchSegs [(1, 1, isLetterI), (4, 5, isDigitCh), (1, 1, fun c => ciEqCh c 'C')] l

/-- `/^VN0[A-Z][0-9A-Z]{5,7}$/i` (Vans). -/
def vansP (l : List Char) : Bool :=
  matchSegs [(1, 1, fun c => ciEqCh c 'V'), (1, 1, fun c => ciEqCh c 'N'),
             (1, 1, fun c => c == '0'), (1, 1, isLetterI), (5, 7, isAlnumI)] l

/-- `/^[0-9]{4}[A-Z][0-9]{3,4}(-[0-9]{3})?$/i` (Asics). -/
def asics1P (l : List Char) : Bool :=
  matchSegs [(4, 4, isDigitCh), (1, 1, isLetterI), (3, 4, isDigitCh)] l ||
  matchSegs [(4, 4, isDigitCh), (1, 1, isLetterI), (3, 4, isDigitCh),
             (1, 1, isDashCh), (3, 3, isDigitCh)] l

/-- `/^1[0-9]{3}[A-Z][0-9]{3}-[0-9]{3}$/i` (Asics, alternative). -/
def asics2P (l : List Char) : Bool :=
  matchSegs [(1, 1, fun c => c == '1'), (3, 3, isDigitCh), (1, 1, isLetterI),
             (3, 3, isDigitCh), (1, 1, isDashCh), (3, 3, isDigitCh)] l

/-- `/^[A-Z]{2}[0-9]{4}$/i` (Reebok). -/
def reebok1P (l : List Char) : Bool :=
  matchSegs [(2, 2, isLetterI), (4, 4, isDigitCh)] l

/-- `/^[0-9]{2}-[0-9]{5}$/` (Reebok, alternative). -/
def reebok2P (l : List Char) : Bool :=
  matchSegs [(2, 2, isDigitCh), (1, 1, isDashCh), (5, 5, isDigitCh)] l

/-- `/^[A-Z0-9]{5,12}(-[A-Z0-9]{2,4})?$/i`, the generic fallback. -/
def genericCodeP (l : List Char) : Bool :=
  matchSegs [(5, 12, isAlnumI)] l ||
  matchSegs [(5, 12, isAlnumI), (1, 1, isDashCh), (2, 4, isAlnumI)] l

structure BrandRule where
  brand : String
  confidence : ℚ
  patterns : List (List Char → Bool)

/-- The ordered `BRAND_PATTERNS` table. -/
def BRAND_PATTERNS : List BrandRule :=
  [⟨"Nike", 95/100, [nike1P, nike2P, nike3P]⟩,
   ⟨"Jordan", 90/100, [jordanP]⟩,
   ⟨"Adidas", 90/100, [adidas1P, adidas2P, adidas3P]⟩,
   ⟨"New Balance", 92/100, [nbMP, nbWP, nbUP, nbMLP]⟩,
   ⟨"Puma", 88/100, [puma1P, puma2P]⟩,
   ⟨"Converse", 90/100, [conv1P, conv2P]⟩,
   ⟨"Vans", 92/100, [vansP]⟩,
   ⟨"Asics", 88/100, [asics1P, asics2P]⟩,
   ⟨"Reebok", 85/100, [reebok1P, reebok2P]⟩]

/-- First-match-wins walk over the rule table (the nested `for` loops). -/
def classifyRules : List BrandRule → List Char → Option (String × ℚ)
  | [], _ => none
  | r :: rest, n =>
    if r.patterns.any (fun p => p n) then some (r.brand, r.confidence)
    else classifyRules rest n

structure Classification where
  brand : String
  confidence : ℚ
  normalized : String
deriving DecidableEq

/-- `sku.toUpperCase().trim().replace(/\s+/g, '')`. -/
def classifyNorm (sku : String) : List Char :=
  (jsTrimChars (sku.toList.map upAscii)).filter (fun c => !jsIsSpace c)

/-- `classifySku` from `src/classifiers/sku-classifier.js` (the local
`normalized` is `classifyNorm sku`). -/
def classifySku (sku : String) : Classification :=
  if sku = "" then ⟨"Unknown", 0, ""⟩
  else
    match classifyRules BRAND_PATTERNS (classifyNorm sku) with
    | some (b, c) => ⟨b, c, String.mk (classifyNorm sku)⟩
    | none =>
      if genericCodeP (classifyNorm sku) then ⟨"Unknown", 1/2, String.mk (classifyNorm sku)⟩
      else ⟨"Unknown", 0, String.mk (classifyNorm sku)⟩

/-! ## A small JS-regex engine

`src/services/normalizer.js` runs unanchored regexes with one capture
group (`name.match(p)` / `match[1]`).  We embed the exact pattern ASTs
and execute them with a backtracking matcher that mirrors JS semantics:
leftmost match, ordered alternation, greedy/lazy quantifiers, word
boundaries, end anchor.  Fuel only bounds recursion depth and is chosen
far above what any pattern here can consume. -/

inductive RE where
  | eps : RE
  | cls : (Char → Bool) → RE
  | seq : RE → RE → RE
  | alt : RE → RE → RE
  | rep : RE → Nat → Option Nat → Bool → RE
  | grp : RE → RE
  | bow : RE
  | eos : RE

abbrev MState := Nat × Option (Nat × Nat)

/-- JS `\w`. -/
def isWordCh (c : Char) : Bool := isAlnumI c || c == '_'

/-- JS `\b`: a word char on exactly one side of position `i`. -/
def boundaryAt (s : List Char) (i : Nat) : Bool :=
  let w : Option Char → Bool := fun o =>
    match o with
    | some c => isWordCh c
    | none => false
  let prev : Bool :=
    match i with
    | 0 => false
    | j + 1 => w (s.get? j)
  prev != w (s.get? i)

/-- Backtracking matcher in CPS.  `k` receives the position after the
node and the capture recorded so far; alternation takes the first
branch whose full continuation succeeds, `rep _ lo hi lazy` prefers
the continuation first iff `lazy` once `lo` iterations are consumed,
and an iteration that consumes nothing ends the loop (JS semantics). -/
def reMat (s : List Char) :
    Nat → RE → Nat → Option (Nat × Nat) →
    (Nat → Option (Nat × Nat) → Option MState) → Option MState
  | 0, _, _, _, _ => none
  | Nat.succ fuel, re, i, cap, k =>
    match re with
    | .eps => k i cap
    | .cls p =>
      match s.get? i with
      | some c => if p c then k (i + 1) cap else none
      | none => none
    | .seq a b => reMat s fuel a i cap (fun j c2 => reMat s fuel b j c2 k)
    | .alt a b =>
      match reMat s fuel a i cap k with
      | some r => some r
      | none => reMat s fuel b i cap k
    | .grp a => reMat s fuel a i cap (fun j _ => k j (some (i, j)))
    | .bow => if boundaryAt s i then k i cap else none
    | .eos => if i = s.length then k i cap else none
    | .rep a lo hi lz =>
      match lo with
      | Nat.succ lo2 =>
        reMat s fuel a i cap (fun j c2 =>
          reMat s fuel (.rep a lo2 (hi.map (· - 1)) lz) j c2 k)
      | 0 =>
        match hi with
        | some 0 => k i cap
        | _ =>
          let one := reMat s fuel a i cap (fun j c2 =>
            if j = i then none
            else reMat s fuel (.rep a 0 (hi.map (· - 1)) lz) j c2 k)
          if lz then
            match k i cap with
            | some r => some r
            | none => one
          else
            match one with
            | some r => some r
            | none => k i cap

def bigFuel (s : List Char) : Nat := 1000 * (s.length + 10)

/-- Leftmost search: try a full match at `i`, `i+1`, …  (`count` counts
the remaining start positions, beginning at `s.length + 1`). -/
def reSearchFrom (re : RE) (s : List Char) : Nat → Nat → Option MState
  | 0, _ => none
  | Nat.succ n, i =>
    match reMat s (bigFuel s) re i none (fun j c => some (j, c)) with
    | some r => some r
    | none => reSearchFrom re s n (i + 1)

/-- `s.match(re)` returning `match[1]`, the single capture group. -/
def jsMatchCapture (re : RE) (s : String) : Option String :=
  match reSearchFrom re s.toList (s.toList.length + 1) 0 with
  | some (_, some (a, b)) => some (String.mk ((s.toList.drop a).take (b - a)))
  | some (_, none) => none
  | none => none

/-! Pattern-building helpers. -/

def reCh (c : Char) : RE := RE.cls (fun x => x == c)

def reChCi (c : Char) : RE := RE.cls (fun x => upAscii x == upAscii c)

def reSeqs (l : List RE) : RE := l.foldr RE.seq RE.eps

def reAlts (l : List RE) : RE := l.foldr RE.alt (RE.cls (fun _ => false))

/-- Case-insensitive literal (each char under the `/i` flag). -/
def reLitCi (cs : List Char) : RE := reSeqs (cs.map reChCi)

def reOpt (r : RE) : RE := RE.rep r 0 (some 1) false

def rePlus (r : RE) : RE := RE.rep r 1 none false

def rePlusLazy (r : RE) : RE := RE.rep r 1 none true

def reStar (r : RE) : RE := RE.rep r 0 none false

def reDigit : RE := RE.cls isDigitCh

def reSpace : RE := RE.cls jsIsSpace

def reDigits4 : RE := RE.rep reDigit 4 (some 4) false

def isQuoteCh (c : Char) : Bool := c == apos || c == '"'

/-! ## Normalizer (`src/services/normalizer.js`) -/

/-- The ordered `modelPatterns` table of `extractModel`, one AST per
source regex, in source order. -/
def modelPatterns : List RE :=
  [ -- /\b(Air Jordan \d+)\b/i
   reSeqs [RE.bow, RE.grp (reSeqs [reLitCi "Air Jordan ".toList, rePlus reDigit]), RE.bow],
   -- /\b(Jordan \d+(?: Retro)?)\b/i
   reSeqs [RE.bow, RE.grp (reSeqs [reLitCi "Jordan ".toList, rePlus reDigit,
     reOpt (reLitCi " Retro".toList)]), RE.bow],
   -- /\b(Dunk (?:Low|High|Mid))\b/i
   reSeqs [RE.bow, RE.grp (reSeqs [reLitCi "Dunk ".toList,
     reAlts [reLitCi "Low".toList, reLitCi "High".toList, reLitCi "Mid".toList]]), RE.bow],
   -- /\b(Air Force 1(?: Low| High| Mid| '07)?)\b/i
   reSeqs [RE.bow, RE.grp (reSeqs [reLitCi "Air Force 1".toList,
     reOpt (reAlts [reLitCi " Low".toList, reLitCi " High".toList, reLitCi " Mid".toList,
       reLitCi (' ' :: apos :: "07".toList)])]), RE.bow],
   -- /\b(Air Max \d+)\b/i
   reSeqs [RE.bow, RE.grp (reSeqs [reLitCi "Air Max ".toList, rePlus reDigit]), RE.bow],
   -- /\b(Blazer (?:Low|Mid|High))\b/i
   reSeqs [RE.bow, RE.grp (reSeqs [reLitCi "Blazer ".toList,
     reAlts [reLitCi "Low".toList, reLitCi "Mid".toList, reLitCi "High".toList]]), RE.bow],
   -- /\b(Cortez)\b/i
   reSeqs [RE.bow, RE.grp (reLitCi "Cortez".toList), RE.bow],
   -- /\b(Yeezy (?:Boost )?\d+(?:\s*V\d)?)\b/i
   reSeqs [RE.bow, RE.grp (reSeqs [reLitCi "Yeezy ".toList, reOpt (reLitCi "Boost ".toList),
     rePlus reDigit, reOpt (reSeqs [reStar reSpace, reChCi 'V', reDigit])]), RE.bow],
   -- /\b(Ultra ?Boost(?:\s*\d+)?)\b/i
   reSeqs [RE.bow, RE.grp (reSeqs [reLitCi "Ultra".toList, reOpt (reCh ' '),
     reLitCi "Boost".toList, reOpt (reSeqs [reStar reSpace, rePlus reDigit])]), RE.bow],
   -- /\b(NMD[_ ]?R?\d?)\b/i
   reSeqs [RE.bow, RE.grp (reSeqs [reLitCi "NMD".toList,
     reOpt (RE.cls (fun c => c == '_' || c == ' ')), reOpt (reChCi 'R'), reOpt reDigit]), RE.bow],
   -- /\b(Superstar)\b/i
   reSeqs [RE.bow, RE.grp (reLitCi "Superstar".toList), RE.bow],
   -- /\b(Stan Smith)\b/i
   reSeqs [RE.bow, RE.grp (reLitCi "Stan Smith".toList), RE.bow],
   -- /\b(Forum (?:Low|High|Mid))\b/i
   reSeqs [RE.bow, RE.grp (reSeqs [reLitCi "Forum ".toList,
     reAlts [reLitCi "Low".toList, reLitCi "High".toList, reLitCi "Mid".toList]]), RE.bow],
   -- /\b(\d{3,4}(?:v\d)?)\b/i   (New Balance)
   reSeqs [RE.bow, RE.grp (reSeqs [RE.rep reDigit 3 (some 4) false,
     reOpt (reSeqs [reChCi 'v', reDigit])]), RE.bow],
   -- /\b(Chuck Taylor|Chuck 70|All Star)\b/i
   reSeqs [RE.bow, RE.grp (reAlts [reLitCi "Chuck Taylor".toList,
     reLitCi "Chuck 70".toList, reLitCi "All Star".toList]), RE.bow],
   -- /\b(Old Skool|Sk8-Hi|Authentic|Era|Slip-On)\b/i
   reSeqs [RE.bow, RE.grp (reAlts [reLitCi "Old Skool".toList, reLitCi "Sk8-Hi".toList,
     reLitCi "Authentic".toList, reLitCi "Era".toList, reLitCi "Slip-On".toList]), RE.bow],
   -- /\b(Gel-Lyte(?:\s*[IVX]+)?)\b/i
   reSeqs [RE.bow, RE.grp (reSeqs [reLitCi "Gel-Lyte".toList,
     reOpt (reSeqs [reStar reSpace,
       rePlus (RE.cls (fun c => upAscii c == 'I' || upAscii c == 'V' || upAscii c == 'X'))])]),
     RE.bow],
   -- /\b(Gel-Kayano(?:\s*\d+)?)\b/i
   reSeqs [RE.bow, RE.grp (reSeqs [reLitCi "Gel-Kayano".toList,
     reOpt (reSeqs [reStar reSpace, rePlus reDigit])]), RE.bow]]

/-- First pattern whose search succeeds wins (`extractModel` loop). -/
def firstCaptureRE : List RE → String → Option String
  | [], _ => none
  | p :: rest, s =>
    match jsMatchCapture p s with
    | some m => some m
    | none => firstCaptureRE rest s

/-- `extractModel` from `src/services/normalizer.js`. -/
def extractModel (name : String) : Option String :=
  if name = "" then none else firstCaptureRE modelPatterns name

/-- The ordered keyword table of `extractBrand` ("more specific first"). -/
def brandRows : List (String × List String) :=
  [("Jordan", ["AIR JORDAN", "JORDAN"]),
   ("Nike", ["NIKE", "DUNK", "AIR FORCE", "AIR MAX", "BLAZER", "CORTEZ"]),
   ("Adidas", ["ADIDAS", "YEEZY", "ULTRABOOST", "NMD", "SUPERSTAR", "STAN SMITH"]),
   ("New Balance", ["NEW BALANCE", "NB "]),
   ("Puma", ["PUMA"]),
   ("Converse", ["CONVERSE", "CHUCK TAYLOR", "ALL STAR"]),
   ("Vans", ["VANS", "OLD SKOOL", "SK8-HI", "AUTHENTIC"]),
   ("Asics", ["ASICS", "GEL-LYTE", "GEL-KAYANO"]),
   ("Reebok", ["REEBOK", "CLUB C", "CLASSIC LEATHER"])]

def brandRowsLookup : List (String × List String) → List Char → Option String
  | [], _ => none
  | (b, pats) :: rest, up =>
    if pats.any (fun p => infixL up p.toList) then some b
    else brandRowsLookup rest up

/-- `extractBrand` from `src/services/normalizer.js`. -/
def extractBrand (name : String) : Option String :=
  if name = "" then none
  else brandRowsLookup brandRows (name.toList.map upAscii)

/-- `/['"]([^'"]+)['"]/` — colorway in quotes. -/
def quoteRe : RE :=
  reSeqs [RE.cls isQuoteCh, RE.grp (rePlus (RE.cls (fun c => !isQuoteCh c))),
    RE.cls isQuoteCh]

/-- `/Retro\s+['"]?([^'"(]+?)['"]?\s*(?:\(\d{4}\)|\d{4})?$/i`. -/
def retroRe : RE :=
  reSeqs [reLitCi "Retro".toList, rePlus reSpace, reOpt (RE.cls isQuoteCh),
    RE.grp (rePlusLazy (RE.cls (fun c => !(isQuoteCh c || c == '(')))),
    reOpt (RE.cls isQuoteCh), reStar reSpace,
    reOpt (RE.alt (reSeqs [reCh '(', reDigits4, reCh ')']) reDigits4), RE.eos]

/-- `/\(([^)]+)\)/` — parenthesized colorway. -/
def parenRe : RE :=
  reSeqs [reCh '(', RE.grp (rePlus (RE.cls (fun c => !(c == ')')))), reCh ')']

/-- `/^\d{4}$/` on the paren capture (a bare year is not a colorway). -/
def isYear4 (m : String) : Bool :=
  m.toList.length == 4 && m.toList.all isDigitCh

/-- The fixed `colorwayKeywords` vocabulary, in source order. -/
def colorwayKeywords : List String :=
  ["Panda", "Bred", "Chicago", "Royal", "Shadow", "Pine Green",
   "University Blue", "Fire Red", "Cement", "Infrared", "Concord",
   "White Oreo", "Black Cat", "Cool Grey", "Triple White", "Triple Black",
   "Zebra", "Beluga", "Cream", "Butter", "Static", "Bone",
   "Grey Day", "Sea Salt", "Navy", "Burgundy", "Forest Green"]

def keywordLookup : List String → List Char → Option String
  | [], _ => none
  | kw :: rest, up =>
    if infixL up (kw.toList.map upAscii) then some kw
    else keywordLookup rest up

/-- The keyword fallback of `extractColorway`. -/
def colorwayFromKeywords (name : String) : Option String :=
  keywordLookup colorwayKeywords (name.toList.map upAscii)

/-- `extractColorway` from `src/services/normalizer.js`: quotes, then the
`Retro` pattern (capture trimmed), then a non-year parenthetical, then
the keyword vocabulary. -/
def extractColorway (name : String) : Option String :=
  if name = "" then none
  else
    match jsMatchCapture quoteRe name with
    | some m => some m
    | none =>
      match jsMatchCapture retroRe name with
      | some m => some (jsTrimStr m)
      | none =>
        match jsMatchCapture parenRe name with
        | some m => if isYear4 m then colorwayFromKeywords name else some m
        | none => colorwayFromKeywords name

structure SourceResult where
  brand : Option String
  name : Option String
  model : Option String
  colorway : Option String
  category : Option String
  sku : String
  source : String
  exactMatch : Bool
deriving DecidableEq

structure NormalizedRecord where
  brand : Option String
  name : Option String
  model : Option String
  colorway : Option String
  category : String
deriving DecidableEq

/-- `normalizeResult` from `src/services/normalizer.js`. -/
def normalizeResult (result : Option SourceResult) : NormalizedRecord :=
  match result with
  | none => ⟨none, none, none, none, "sneakers"⟩
  | some r =>
    let name := jsOrEmpty r.name
    ⟨jsOrStr r.brand (extractBrand name),
     some name,
     jsOrStr r.model (extractModel name),
     jsOrStr r.colorway (extractColorway name),
     jsOrDefault r.category "sneakers"⟩

/-! ## Resolution orchestrator (`src/resolvers/index.js`)

`resolve` is async but its awaits are sequential, so it embeds as a
pure function of the incoming cache state and of the two adapter result
functions (KicksDB then Sneaks; each models one `await`, `none` for the
JS `null`).  The four `Int` parameters are the `Date.now()` reads on an
execution path: at entry, inside `getCached`, inside `setCache`, and at
the `return`. -/

/-- The value cached by `resolve`: `{ ...normalized, source, confidence }`. -/
structure CachedVal where
  brand : Option String
  name : Option String
  model : Option String
  colorway : Option String
  category : String
  source : String
  confidence : ℚ
deriving DecidableEq

/-- The `resolved` object of a successful response. -/
structure ResolvedRec where
  brand : Option String
  name : Option String
  model : Option String
  colorway : Option String
  category : String
deriving DecidableEq

/-- The JS response object; keys absent on a branch are `none`. -/
structure ResolveResponse where
  success : Bool
  input : String
  resolved : Option ResolvedRec
  confidence : Option ℚ
  source : Option String
  classification : Classification
  timing : Int
  error : Option String
deriving DecidableEq

/-- `let result = await kicksdb(...); if (!result) result = await sneaks(...)`:
the first non-null adapter result. -/
def jsFirstSome (a b : Option SourceResult) : Option SourceResult :=
  match a with
  | some r => some r
  | none => b

/-- `classification.normalized || sku.toUpperCase().trim()`. -/
def resolveNormId (sku : String) : String :=
  if (classifySku sku).normalized ≠ "" then (classifySku sku).normalized
  else jsUpperTrim sku

/-- `resolve` from `src/resolvers/index.js`.  Returns the response and
the cache state after the call. -/
def resolve (sku : String) (cache : CacheMap CachedVal)
    (a1 a2 : String → Option SourceResult)
    (tStart tCache tWrite tEnd : Int) :
    ResolveResponse × CacheMap CachedVal :=
  let classification := classifySku sku
  let normalizedSku := resolveNormId sku
  let gc := getCached normalizedSku tCache cache
  match gc.1 with
  | some hit =>
    let conf := calculateConfidence
      ⟨classification.confidence, "cache", true, jsTruthyOpt hit.data.brand,
       jsTruthyOpt hit.data.model, jsTruthyOpt hit.data.colorway, true⟩
    (⟨true, sku,
      some ⟨hit.data.brand, hit.data.name, hit.data.model, hit.data.colorway,
        hit.data.category⟩,
      some (jsRound2 conf), some "cache", classification, tEnd - tStart, none⟩,
     gc.2)
  | none =>
    let result := jsFirstSome (a1 normalizedSku) (a2 normalizedSku)
    match result with
    | none =>
      (⟨false, sku, none, none, none, classification, tEnd - tStart,
        some "No match found"⟩, gc.2)
    | some r =>
      let normalized := normalizeResult (some r)
      let conf := calculateConfidence
        ⟨classification.confidence, r.source, r.exactMatch,
         jsTruthyOpt normalized.brand, jsTruthyOpt normalized.model,
         jsTruthyOpt normalized.colorway, false⟩
      let newCache :=
        if conf ≥ 1/2 then
          setCache normalizedSku
            ⟨normalized.brand, normalized.name, normalized.model,
             normalized.colorway, normalized.category, r.source, conf⟩
            tWrite gc.2
        else gc.2
      (⟨true, sku,
        some ⟨normalized.brand, normalized.name, normalized.model,
          normalized.colorway, normalized.category⟩,
        some (jsRound2 conf), some r.source, classification, tEnd - tStart, none⟩,
       newCache)

/-- The confidence computed by `resolve` on a cache hit. -/
def hitConfidence (sku : String) (hit : CacheHit CachedVal) : ℚ :=
  calculateConfidence
    ⟨(classifySku sku).confidence, "cache", true, jsTruthyOpt hit.data.brand,
     jsTruthyOpt hit.data.model, jsTruthyOpt hit.data.colorway, true⟩

/-- The confidence computed by `resolve` for an adapter result `r`. -/
def sourceConfidence (sku : String) (r : SourceResult) : ℚ :=
  calculateConfidence
    ⟨(classifySku sku).confidence, r.source, r.exactMatch,
     jsTruthyOpt (normalizeResult (some r)).brand,
     jsTruthyOpt (normalizeResult (some r)).model,
     jsTruthyOpt (normalizeResult (some r)).colorway, false⟩

/-- The cache value written by `resolve` for an adapter result `r`. -/
def cacheValOf (sku : String) (r : SourceResult) : CachedVal :=
  ⟨(normalizeResult (some r)).brand, (normalizeResult (some r)).name,
   (normalizeResult (some r)).model, (normalizeResult (some r)).colorway,
   (normalizeResult (some r)).category, r.source, sourceConfidence sku r⟩

/-! ## Concrete example values used by witnesses and counterexamples -/

/-- A cached value as `resolve` would have written it for `DD1391-100`. -/
def exCachedVal : CachedVal :=
  ⟨some "Nike", some "Nike Dunk Low Retro White Black Panda", some "Dunk Low",
   some "Panda", "sneakers", "kicksdb", 9/10⟩

/-- A one-entry cache holding `exCachedVal` under `DD1391-100`, written at time 0. -/
def exCache : CacheMap CachedVal := [("DD1391-100", ⟨exCachedVal, 0⟩)]

/-- The hit `getCached` returns from `exCache` while the entry is live. -/
def exHit : CacheHit CachedVal := ⟨exCachedVal, true⟩

/-- An adapter result with no name and no fields: every completeness
signal is false, so its confidence lands below the caching gate. -/
def lowRes : SourceResult :=
  ⟨none, none, none, none, none, "DD1391-100", "kicksdb", false⟩

/-- An exact-match adapter result with brand/model/colorway present:
its confidence lands above the caching gate. -/
def highRes : SourceResult :=
  ⟨some "Nike", some "Nike Dunk Low Retro White Black Panda", some "Dunk Low",
   some "Panda", some "sneakers", "DD1391-100", "kicksdb", true⟩

/-- The SourceResult of end-to-end scenario 1: only a display name. -/
def pandaSrcRes : SourceResult :=
  ⟨none, some "Nike Dunk Low Retro White Black Panda", none, none, none,
   "DD1391-100", "kicksdb", true⟩

/-! ## Helper lemmas -/

theorem lookupKV_setKV_self {α : Type} (c : CacheMap α) (k : String) (e : CacheEntry α) :
    lookupKV (setKV c k e) k = some e := by
  induction c with
  | nil => simp [setKV, lookupKV]
  | cons kv rest ih =>
    obtain ⟨k0, e0⟩ := kv
    by_cases h : k0 = k
    · simp [setKV, lookupKV, h]
    · simp [setKV, lookupKV, h, ih]

theorem getCached_hit_cache_eq {α : Type} {sku : String} {now : Int}
    {cache : CacheMap α} {h : CacheHit α}
    (hh : (getCached sku now cache).1 = some h) :
    (getCached sku now cache).2 = cache := by
  unfold getCached at hh ⊢
  by_cases h1 : sku = ""
  · simp [h1] at hh
  · simp only [if_neg h1] at hh ⊢
    cases hl : lookupKV cache (jsUpperTrim sku) with
    | none => simp [hl]
    | some entry =>
      simp only [hl] at hh ⊢
      by_cases h2 : now - entry.timestamp < ttlMs
      · simp [h2]
      · simp [h2] at hh

theorem clampQ_mono {a b : ℚ} (h : a ≤ b) : min 1 (max 0 a) ≤ min 1 (max 0 b) :=
  min_le_min le_rfl (max_le_max le_rfl h)

/-- C4 helper: the pre-clamp weighted sum is pointwise monotone in each flag. -/
theorem calculateConfidence_flip_le (i : ConfidenceInputs) (j : ConfidenceInputs)
    (hp : i.patternConfidence = j.patternConfidence) (hs : i.source = j.source)
    (h1 : i.exactSkuMatch → j.exactSkuMatch) (h2 : i.hasBrand → j.hasBrand)
    (h3 : i.hasModel → j.hasModel) (h4 : i.hasColorway → j.hasColorway)
    (h5 : i.fromCache → j.fromCache) :
    calculateConfidence i ≤ calculateConfidence j := by
  unfold calculateConfidence
  apply clampQ_mono
  rw [hp, hs]
  gcongr <;> [skip; skip; skip; skip; skip] <;> split_ifs <;> simp_all <;> norm_num

/-- Unfolding of `resolve` on the cache-hit path. -/
theorem resolve_hit_eq (sku : String) (cache : CacheMap CachedVal)
    (a1 a2 : String → Option SourceResult) (t1 t2 t3 t4 : Int)
    (hit : CacheHit CachedVal)
    (hh : (getCached (resolveNormId sku) t2 cache).1 = some hit) :
    resolve sku cache a1 a2 t1 t2 t3 t4 =
      (⟨true, sku,
        some ⟨hit.data.brand, hit.data.name, hit.data.model, hit.data.colorway,
          hit.data.category⟩,
        some (jsRound2 (hitConfidence sku hit)), some "cache", classifySku sku,
        t4 - t1, none⟩,
       cache) := by
  have hc := getCached_hit_cache_eq hh
  simp only [resolve, hh, hc, hitConfidence]

/-- Unfolding of `resolve` on the miss-everywhere path. -/
theorem resolve_miss_none_eq (sku : String) (cache : CacheMap CachedVal)
    (a1 a2 : String → Option SourceResult) (t1 t2 t3 t4 : Int)
    (hm : (getCached (resolveNormId sku) t2 cache).1 = none)
    (h1 : a1 (resolveNormId sku) = none)
    (h2 : a2 (resolveNormId sku) = none) :
    resolve sku cache a1 a2 t1 t2 t3 t4 =
      (⟨false, sku, none, none, none, classifySku sku, t4 - t1,
        some "No match found"⟩,
       (getCached (resolveNormId sku) t2 cache).2) := by
  simp only [resolve, hm, h1, h2, jsFirstSome]

/-- Unfolding of `resolve` on the miss-then-adapter-result path. -/
theorem resolve_miss_some_eq (sku : String) (cache : CacheMap CachedVal)
    (a1 a2 : String → Option SourceResult) (t1 t2 t3 t4 : Int)
    (r : SourceResult)
    (hm : (getCached (resolveNormId sku) t2 cache).1 = none)
    (hr : jsFirstSome (a1 (resolveNormId sku)) (a2 (resolveNormId sku)) = some r) :
    resolve sku cache a1 a2 t1 t2 t3 t4 =
      (⟨true, sku,
        some ⟨(normalizeResult (some r)).brand, (normalizeResult (some r)).name,
          (normalizeResult (some r)).model, (normalizeResult (some r)).colorway,
          (normalizeResult (some r)).category⟩,
        some (jsRound2 (sourceConfidence sku r)), some r.source, classifySku sku,
        t4 - t1, none⟩,
       if sourceConfidence sku r ≥ 1/2 then
         setCache (resolveNormId sku) (cacheValOf sku r) t3
           (getCached (resolveNormId sku) t2 cache).2
       else (getCached (resolveNormId sku) t2 cache).2) := by
  simp only [resolve, hm, hr, sourceConfidence, cacheValOf]

theorem ciEqCh_letter (c u : Char) (hu : isUpperCh u = true) (h : ciEqCh c u = true) :
    isLetterI c = true := by
  unfold ciEqCh upAscii at h
  by_cases hl : 'a' ≤ c ∧ c ≤ 'z'
  · unfold isLetterI isLowerCh
    simp [hl.1, hl.2]
  · rw [if_neg hl] at h
    have hc : c = u := by simpa using h
    rw [hc]
    unfold isLetterI
    simp [hu]

/-- A segment with an exact count consumes exactly that many characters. -/
theorem matchSegs_exact_cons (k : Nat) (p : Char → Bool)
    (segs : List (Nat × Nat × (Char → Bool))) (l : List Char) :
    matchSegs ((k, k, p) :: segs) l =
      match takeCls p k l with
      | some l2 => matchSegs segs l2
      | none => false := by
  have h1 : k + 1 - k = 1 := by omega
  have h2 : List.range (k + 1 - k) = [0] := by rw [h1]; rfl
  conv_lhs => rw [matchSegs, h2]
  simp only [List.any_cons, List.any_nil, Bool.or_false, Nat.add_zero]

/-- Any string matching the Jordan pattern matches Nike's first pattern. -/
theorem jordan_implies_nike1 (l : List Char) (h : jordanP l = true) :
    nike1P l = true := by
  rcases l with _ | ⟨a, _ | ⟨b, rest⟩⟩
  · simp [jordanP] at h
  · simp [jordanP] at h
  · unfold jordanP at h
    simp only [Bool.and_eq_true, List.any_eq_true] at h
    obtain ⟨⟨pr, hpr, hab⟩, htail⟩ := h
    have ha : isLetterI a = true := by
      fin_cases hpr <;> exact ciEqCh_letter a _ (by decide) hab.1
    have hb : isLetterI b = true := by
      fin_cases hpr <;> exact ciEqCh_letter b _ (by decide) hab.2
    have hstep : takeCls isLetterI 2 (a :: b :: rest) = some rest := by
      simp [takeCls, ha, hb]
    unfold nike1P
    rw [matchSegs_exact_cons, hstep]
    exact htail

/-- If the rule walk fires, the winning brand comes from a rule in the
list whose pattern set matched the input. -/
theorem classifyRules_sound (L : List BrandRule) (n : List Char) (b : String) (c : ℚ)
    (h : classifyRules L n = some (b, c)) :
    ∃ r ∈ L, b = r.brand ∧ r.patterns.any (fun p => p n) = true := by
  induction L with
  | nil => simp [classifyRules] at h
  | cons r rest ih =>
    unfold classifyRules at h
    split_ifs at h with hc
    · simp only [Option.some.injEq, Prod.mk.injEq] at h
      exact ⟨r, List.mem_cons_self r rest, h.1.symm, hc⟩
    · obtain ⟨r2, hr2, hb2, hp2⟩ := ih h
      exact ⟨r2, List.mem_cons_of_mem _ hr2, hb2, hp2⟩

/-- C10: the Jordan rule of `BRAND_PATTERNS` is unreachable: `classifySku`
never returns brand "Jordan", and any input whose normalized form matches
the Jordan pattern is classified as Nike with confidence 0.95 (the Nike
rule precedes it and its first pattern subsumes the Jordan pattern). -/
theorem classifySku_never_jordan (sku : String) :
    (classifySku sku).brand ≠ "Jordan" ∧
    (jordanP (classifyNorm sku) = true →
      (classifySku sku).brand = "Nike" ∧ (classifySku sku).confidence = 95/100) := by
  by_cases hs : sku = ""
  · subst hs
    refine ⟨by decide, fun h => absurd h (by decide)⟩
  · unfold classifySku
    rw [if_neg hs]
    by_cases hN : ([nike1P, nike2P, nike3P].any (fun p => p (classifyNorm sku))) = true
    · have hcr : classifyRules BRAND_PATTERNS (classifyNorm sku) = some ("Nike", 95/100) := by
        unfold BRAND_PATTERNS classifyRules
        rw [if_pos hN]
      rw [hcr]
      refine ⟨?_, fun _ => ⟨rfl, rfl⟩⟩
      show ("Nike" : String) ≠ "Jordan"
      decide
    · have hn1 : nike1P (classifyNorm sku) = false := by
        revert hN
        simp only [List.any_cons, List.any_nil, Bool.or_eq_true, not_or]
        intro h
        cases hx : nike1P (classifyNorm sku)
        · rfl
        · exact absurd hx h.1
      have hJ : jordanP (classifyNorm sku) = false := by
        cases hj : jordanP (classifyNorm sku)
        · rfl
        · have hx := jordan_implies_nike1 _ hj
          rw [hn1] at hx
          cases hx
      refine ⟨?_, fun hj => absurd hj (by rw [hJ]; simp)⟩
      cases hres : classifyRules BRAND_PATTERNS (classifyNorm sku) with
      | none =>
        show (if genericCodeP (classifyNorm sku) = true then
            (⟨"Unknown", 1/2, String.mk (classifyNorm sku)⟩ : Classification)
          else ⟨"Unknown", 0, String.mk (classifyNorm sku)⟩).brand ≠ "Jordan"
        split_ifs
        · show ("Unknown" : String) ≠ "Jordan"
          decide
        · show ("Unknown" : String) ≠ "Jordan"
          decide
      | some bc =>
        obtain ⟨b, c⟩ := bc
        obtain ⟨r, hrmem, hbeq, hcond⟩ := classifyRules_sound _ _ _ _ hres
        show b ≠ "Jordan"
        subst hbeq
        fin_cases hrmem
        · decide
        · -- the Jordan rule: its only pattern contradicts hJ
          simp only [List.any_cons, List.any_nil, Bool.or_false] at hcond
          rw [hJ] at hcond
          cases hcond
        all_goals decide

/-- Witness for `classifySku_never_jordan`: `DD1391-100` matches the
Jordan pattern and classifies as Nike with confidence 0.95. -/
theorem classifySku_never_jordan_witness :
    (classifySku "DD1391-100").brand = "Nike" ∧
    (classifySku "DD1391-100").confidence = 95/100 :=
  (classifySku_never_jordan "DD1391-100").2 (by decide)

/-- C4: `calculateConfidence` always returns a score in [0, 1], and the
score is monotone non-decreasing in each of the five boolean inputs:
flipping any one of them from false to true, all else fixed, never
decreases the score. -/
theorem calculateConfidence_bounded_monotone (i : ConfidenceInputs) :
    (0 ≤ calculateConfidence i ∧ calculateConfidence i ≤ 1) ∧
    calculateConfidence {i with exactSkuMatch := false} ≤
      calculateConfidence {i with exactSkuMatch := true} ∧
    calculateConfidence {i with hasBrand := false} ≤
      calculateConfidence {i with hasBrand := true} ∧
    calculateConfidence {i with hasModel := false} ≤
      calculateConfidence {i with hasModel := true} ∧
    calculateConfidence {i with hasColorway := false} ≤
      calculateConfidence {i with hasColorway := true} ∧
    calculateConfidence {i with fromCache := false} ≤
      calculateConfidence {i with fromCache := true} := by
  refine ⟨⟨le_min (by norm_num) (le_max_left 0 _), min_le_left _ _⟩, ?_, ?_, ?_, ?_, ?_⟩
  all_goals
    apply calculateConfidence_flip_le <;>
      first
        | rfl
        | (intro h; first | exact h | rfl)

/-- C7 counterexample: "1234" is 4 characters after trimming, consists
only of allowed characters, yet `validateSkuQuery` rejects it (the
digits-only guard fires for purely numeric queries shorter than 6). -/
theorem validateSkuQuery_claim_counterexample :
    (jsTrimChars ("1234".toList)).length = 4 ∧
    (∀ c ∈ jsTrimChars ("1234".toList), allowedQueryChar c = true) ∧
    (validateSkuQuery "1234").valid = false ∧
    (validateSkuQuery "1234").error =
      some "Query appears to be invalid (too few characters)" := by
  refine ⟨by decide, by decide, by decide, by decide⟩

/-- C7 (amended): a trimmed query of length 4–20 over letters, digits,
hyphens and spaces is accepted unless it is purely numeric with fewer
than 6 digits; every rejection carries an error message different from
"No match found". -/
theorem validateSkuQuery_amended (s : String)
    (h1 : 4 ≤ (jsTrimChars s.toList).length)
    (h2 : (jsTrimChars s.toList).length ≤ 20)
    (h3 : ∀ c ∈ jsTrimChars s.toList, allowedQueryChar c = true)
    (h4 : ¬(jsAllDigits (jsTrimChars s.toList) = true ∧
            (jsTrimChars s.toList).length < 6)) :
    (validateSkuQuery s).valid = true ∧
    ∀ t : String, (validateSkuQuery t).error ≠ some "No match found" := by
  constructor
  · have hs : s ≠ "" := by
      intro he
      rw [he] at h1
      simp [jsTrimChars] at h1
    unfold validateSkuQuery
    rw [if_neg hs]
    have g1 : ¬(jsTrimChars s.toList).length < 4 := by omega
    have g2 : ¬(jsTrimChars s.toList).length > 20 := by omega
    have g3 : ¬(jsAllDigits (jsTrimChars s.toList) &&
        decide ((jsTrimChars s.toList).length < 6)) = true := by
      simp only [Bool.and_eq_true, decide_eq_true_eq]
      exact h4
    have g4 : ¬((jsTrimChars s.toList).any fun c => !allowedQueryChar c) = true := by
      simp only [List.any_eq_true, Bool.not_eq_true']
      rintro ⟨c, hc, hcc⟩
      rw [h3 c hc] at hcc
      cases hcc
    rw [if_neg g1, if_neg g2, if_neg g3, if_neg g4]
  · intro t
    unfold validateSkuQuery
    by_cases c0 : t = ""
    · simp [c0]
    · rw [if_neg c0]
      dsimp only
      by_cases c1 : (jsTrimChars t.toList).length < 4
      · rw [if_pos c1]
        simp
      · rw [if_neg c1]
        by_cases c2 : (jsTrimChars t.toList).length > 20
        · rw [if_pos c2]
          simp
        · rw [if_neg c2]
          by_cases c3 : (jsAllDigits (jsTrimChars t.toList) &&
              decide ((jsTrimChars t.toList).length < 6)) = true
          · rw [if_pos c3]
            simp
          · rw [if_neg c3]
            by_cases c4 : ((jsTrimChars t.toList).any fun c => !allowedQueryChar c) = true
            · rw [if_pos c4]
              simp
            · rw [if_neg c4]
              simp

/-- Witness for `validateSkuQuery_amended` at the query "DD1391-100". -/
theorem validateSkuQuery_amended_witness :
    (validateSkuQuery "DD1391-100").valid = true :=
  (validateSkuQuery_amended "DD1391-100" (by decide) (by decide) (by decide)
    (by decide)).1

/-- C5 counterexample: the cache stores and returns `data` verbatim and
keeps no access accounting.  Storing a record whose `accessCount` field
is 5 and reading it back yields `accessCount` 5 — not incremented — and
the hit leaves the cache state entirely unchanged (no `accessedAt`
refresh, no counter bump). -/
theorem cache_accessCount_counterexample :
    (getCached "DD1391-100" 1
        (setCache "DD1391-100" (⟨"Nike Dunk Low", 5⟩ : CountedRec) 0 [])).1 =
      some ⟨⟨"Nike Dunk Low", 5⟩, true⟩ ∧
    (getCached "DD1391-100" 1
        (setCache "DD1391-100" (⟨"Nike Dunk Low", 5⟩ : CountedRec) 0 [])).2 =
      setCache "DD1391-100" (⟨"Nike Dunk Low", 5⟩ : CountedRec) 0 [] := by
  refine ⟨by decide, by decide⟩

/-- C5 (amended): `set(k, r, ...)` followed by `get(k)` within the TTL
returns the stored record `r` unchanged, tagged `fromCache = true`; the
store keeps no `accessCount` or `accessedAt`, and a hit does not modify
the cache state at all. -/
theorem cache_roundtrip_amended {α : Type} (cache : CacheMap α) (sku : String)
    (r : α) (tSet tGet : Int) (hsku : sku ≠ "") (h : tGet - tSet < ttlMs) :
    (getCached sku tGet (setCache sku r tSet cache)).1 = some ⟨r, true⟩ ∧
    (getCached sku tGet (setCache sku r tSet cache)).2 =
      setCache sku r tSet cache := by
  unfold getCached setCache
  rw [if_neg hsku, if_neg hsku]
  simp only [lookupKV_setKV_self]
  rw [if_pos h]
  exact ⟨rfl, rfl⟩

/-- Witness for `cache_roundtrip_amended` on a fresh one-entry cache. -/
theorem cache_roundtrip_amended_witness :
    (getCached "ABCD-123" 10
        (setCache "ABCD-123" (⟨"x", 1⟩ : CountedRec) 0 [])).1 =
      some ⟨⟨"x", 1⟩, true⟩ :=
  (cache_roundtrip_amended ([] : CacheMap CountedRec) "ABCD-123"
    (⟨"x", 1⟩ : CountedRec) 0 10 (by decide) (by decide)).1

/-- C8: with the default 30-day TTL, an entry written at time `T` is
returned at `T + TTL − 1` ms, and at `T + TTL + 1` ms the key behaves
exactly like an unknown key (the read returns null). -/
theorem cache_ttl_boundary {α : Type} (cache : CacheMap α) (sku : String)
    (r : α) (T : Int) (hsku : sku ≠ "") :
    (getCached sku (T + ttlMs - 1) (setCache sku r T cache)).1 = some ⟨r, true⟩ ∧
    (getCached sku (T + ttlMs + 1) (setCache sku r T cache)).1 = none ∧
    (getCached sku (T + ttlMs + 1) (setCache sku r T cache)).1 =
      (getCached sku (T + ttlMs + 1) ([] : CacheMap α)).1 := by
  have hlive : T + ttlMs - 1 - T < ttlMs := by omega
  have hdead : ¬(T + ttlMs + 1 - T < ttlMs) := by omega
  unfold getCached setCache
  simp only [if_neg hsku]
  simp only [lookupKV_setKV_self, lookupKV]
  rw [if_pos hlive, if_neg hdead]
  exact ⟨rfl, rfl, rfl⟩

/-- Witness for `cache_ttl_boundary` at `T = 0` on an empty cache. -/
theorem cache_ttl_boundary_witness :
    (getCached "ABCD-123" (ttlMs - 1)
        (setCache "ABCD-123" (⟨"x", 1⟩ : CountedRec) 0 [])).1 =
      some ⟨⟨"x", 1⟩, true⟩ := by
  have h := cache_ttl_boundary ([] : CacheMap CountedRec) "ABCD-123"
    (⟨"x", 1⟩ : CountedRec) 0 (by decide)
  rw [zero_add] at h
  exact h.1

/-- C1: on a live cache hit for the normalized identifier, `resolve`
returns success with source "cache" and the cached record's fields, with
a confidence computed from `fromCache = true` and `exactSkuMatch = true`
(see `hitConfidence`); the result does not depend on the source adapters
(none is invoked) and the cache state is left exactly as it was. -/
theorem resolve_cache_hit_claim (sku : String) (cache : CacheMap CachedVal)
    (a1 a2 b1 b2 : String → Option SourceResult) (t1 t2 t3 t4 : Int)
    (hit : CacheHit CachedVal)
    (hh : (getCached (resolveNormId sku) t2 cache).1 = some hit) :
    resolve sku cache a1 a2 t1 t2 t3 t4 = resolve sku cache b1 b2 t1 t2 t3 t4 ∧
    (resolve sku cache a1 a2 t1 t2 t3 t4).2 = cache ∧
    (resolve sku cache a1 a2 t1 t2 t3 t4).1 =
      ⟨true, sku,
       some ⟨hit.data.brand, hit.data.name, hit.data.model, hit.data.colorway,
         hit.data.category⟩,
       some (jsRound2 (hitConfidence sku hit)), some "cache", classifySku sku,
       t4 - t1, none⟩ := by
  rw [resolve_hit_eq sku cache a1 a2 t1 t2 t3 t4 hit hh,
    resolve_hit_eq sku cache b1 b2 t1 t2 t3 t4 hit hh]
  exact ⟨rfl, rfl, rfl⟩

/-- Witness for `resolve_cache_hit_claim`: a live entry under
`DD1391-100` makes `resolve` leave the cache untouched. -/
theorem resolve_cache_hit_claim_witness :
    (resolve "DD1391-100" exCache (fun _ => none) (fun _ => none) 0 5 6 7).2 =
      exCache :=
  (resolve_cache_hit_claim "DD1391-100" exCache (fun _ => none) (fun _ => none)
    (fun _ => some lowRes) (fun _ => none) 0 5 6 7 exHit rfl).2.1

/-- C2: when the cache misses and both adapters return null, `resolve`
returns (as a value) a failure response with error "No match found",
still carrying the classification and the elapsed timing. -/
theorem resolve_no_match_claim (sku : String) (cache : CacheMap CachedVal)
    (a1 a2 : String → Option SourceResult) (t1 t2 t3 t4 : Int)
    (hm : (getCached (resolveNormId sku) t2 cache).1 = none)
    (h1 : a1 (resolveNormId sku) = none)
    (h2 : a2 (resolveNormId sku) = none) :
    (resolve sku cache a1 a2 t1 t2 t3 t4).1 =
      ⟨false, sku, none, none, none, classifySku sku, t4 - t1,
       some "No match found"⟩ := by
  rw [resolve_miss_none_eq sku cache a1 a2 t1 t2 t3 t4 hm h1 h2]

/-- Witness for `resolve_no_match_claim` at the no-pattern query
`ZZ0000-000` on an empty cache. -/
theorem resolve_no_match_claim_witness :
    (resolve "ZZ0000-000" [] (fun _ => none) (fun _ => none) 0 1 2 3).1 =
      ⟨false, "ZZ0000-000", none, none, none, classifySku "ZZ0000-000", 3,
       some "No match found"⟩ := by
  have h := resolve_no_match_claim "ZZ0000-000" [] (fun _ => none)
    (fun _ => none) 0 1 2 3 rfl rfl rfl
  rw [h]
  norm_num

/-- C3 counterexample: a resolution that obtains a source result with
confidence < 0.5 does NOT always leave the cache state for the key
unchanged — when the key held a TTL-expired entry, the lookup phase
evicts it, so the key's entry disappears even though nothing is written. -/
theorem resolve_cache_gate_counterexample :
    sourceConfidence "DD1391-100" lowRes < 1/2 ∧
    lookupKV exCache "DD1391-100" = some ⟨exCachedVal, 0⟩ ∧
    (resolve "DD1391-100" exCache (fun _ => some lowRes) (fun _ => none)
        0 ttlMs ttlMs (ttlMs + 1)).2 = [] := by
  have hsc : sourceConfidence "DD1391-100" lowRes =
      calculateConfidence ⟨95/100, "kicksdb", false, false, false, false, false⟩ := rfl
  have hlow : sourceConfidence "DD1391-100" lowRes < 1/2 := by
    rw [hsc]
    norm_num [calculateConfidence, sourceScore]
  refine ⟨hlow, rfl, ?_⟩
  rw [resolve_miss_some_eq "DD1391-100" exCache (fun _ => some lowRes)
    (fun _ => none) 0 ttlMs ttlMs (ttlMs + 1) lowRes rfl rfl]
  simp only
  rw [if_neg (not_le.mpr hlow)]
  rfl

/-- C3 (amended): after a miss and a source result, the entry keyed by
the normalized identifier is upserted iff the computed confidence is
≥ 0.5, relative to the cache state left by the lookup (the lookup
itself may already have evicted a TTL-expired entry under that key). -/
theorem resolve_cache_gate_amended (sku : String) (cache : CacheMap CachedVal)
    (a1 a2 : String → Option SourceResult) (t1 t2 t3 t4 : Int) (r : SourceResult)
    (hm : (getCached (resolveNormId sku) t2 cache).1 = none)
    (hr : jsFirstSome (a1 (resolveNormId sku)) (a2 (resolveNormId sku)) = some r) :
    (sourceConfidence sku r < 1/2 →
      (resolve sku cache a1 a2 t1 t2 t3 t4).2 =
        (getCached (resolveNormId sku) t2 cache).2) ∧
    (1/2 ≤ sourceConfidence sku r →
      (resolve sku cache a1 a2 t1 t2 t3 t4).2 =
        setCache (resolveNormId sku) (cacheValOf sku r) t3
          (getCached (resolveNormId sku) t2 cache).2) := by
  rw [resolve_miss_some_eq sku cache a1 a2 t1 t2 t3 t4 r hm hr]
  constructor
  · intro h
    simp only
    rw [if_neg (not_le.mpr h)]
  · intro h
    simp only
    rw [if_pos h]

/-- Witness for `resolve_cache_gate_amended`: a rich exact-match result
scores above the gate and is upserted under the normalized identifier. -/
theorem resolve_cache_gate_amended_witness :
    (resolve "DD1391-100" [] (fun _ => some highRes) (fun _ => none) 0 1 2 3).2 =
      setCache (resolveNormId "DD1391-100") (cacheValOf "DD1391-100" highRes) 2
        (getCached (resolveNormId "DD1391-100") 1 []).2 := by
  have hsc : sourceConfidence "DD1391-100" highRes =
      calculateConfidence ⟨95/100, "kicksdb", true, true, true, true, false⟩ := rfl
  exact (resolve_cache_gate_amended "DD1391-100" [] (fun _ => some highRes)
    (fun _ => none) 0 1 2 3 highRes rfl rfl).2
    (by rw [hsc]; norm_num [calculateConfidence, sourceScore])

/-- C6 counterexample: on the query " " the classification's normalized
identifier is empty, yet `resolve` does not short-circuit with a
validation-style failure: with all-null adapters it runs the full chain
and returns the ordinary "No match found" outcome, and with a non-null
adapter it even succeeds — so the adapters are reached. -/
theorem resolve_empty_id_counterexample :
    (classifySku " ").normalized = "" ∧
    (resolve " " [] (fun _ => none) (fun _ => none) 0 0 0 3).1.success = false ∧
    (resolve " " [] (fun _ => none) (fun _ => none) 0 0 0 3).1.error =
      some "No match found" ∧
    (resolve " " [] (fun _ => some highRes) (fun _ => none) 0 0 0 3).1.success =
      true :=
  ⟨rfl, rfl, rfl, rfl⟩

/-- C6 (amended): `resolve` performs no empty-identifier short-circuit.
When classification yields an empty normalized identifier (and the
fallback `sku.toUpperCase().trim()` is empty too), the cache guard
returns null for the empty key, the adapters are invoked with the empty
key, and if they return null the result is the ordinary "No match
found" failure with the cache untouched; validation-style failures are
produced before `resolve` by the routes via `validateSkuQuery`. -/
theorem resolve_empty_id_amended (sku : String) (cache : CacheMap CachedVal)
    (a1 a2 : String → Option SourceResult) (t1 t2 t3 t4 : Int)
    (hn : (classifySku sku).normalized = "") (ht : jsUpperTrim sku = "")
    (h1 : a1 "" = none) (h2 : a2 "" = none) :
    (resolve sku cache a1 a2 t1 t2 t3 t4).1 =
      ⟨false, sku, none, none, none, classifySku sku, t4 - t1,
       some "No match found"⟩ ∧
    (resolve sku cache a1 a2 t1 t2 t3 t4).2 = cache := by
  have hid : resolveNormId sku = "" := by
    unfold resolveNormId
    rw [hn, if_neg (by simp)]
    exact ht
  have hm : (getCached (resolveNormId sku) t2 cache).1 = none := by
    rw [hid]
    rfl
  have hc : (getCached (resolveNormId sku) t2 cache).2 = cache := by
    rw [hid]
    rfl
  have e := resolve_miss_none_eq sku cache a1 a2 t1 t2 t3 t4 hm
    (by rw [hid]; exact h1) (by rw [hid]; exact h2)
  exact ⟨by rw [e], by rw [e]; exact hc⟩

/-- Witness for `resolve_empty_id_amended` at the query " ". -/
theorem resolve_empty_id_amended_witness :
    (resolve " " [] (fun _ => none) (fun _ => none) 0 0 0 5).2 = [] :=
  (resolve_empty_id_amended " " [] (fun _ => none) (fun _ => none) 0 0 0 5
    rfl rfl rfl rfl).2

set_option maxRecDepth 40000 in
/-- C9 counterexample: normalizing the scenario-1 SourceResult does not
yield colorway "Panda": the name has no quoted part, so the `Retro`
pattern fires and its lazy capture runs to the end of the name, giving
"White Black Panda". -/
theorem normalize_colorway_counterexample :
    (normalizeResult (some pandaSrcRes)).colorway = some "White Black Panda" ∧
    (normalizeResult (some pandaSrcRes)).colorway ≠ some "Panda" := by
  refine ⟨by decide, by decide⟩

set_option maxRecDepth 40000 in
/-- C9 (amended): `classifySku "dd1391-100"` gives exactly
`{brand: Nike, confidence: 0.95, normalized: "DD1391-100"}`, and the
normalizer maps the scenario-1 SourceResult to brand Nike, model
"Dunk Low", colorway "White Black Panda" and category "sneakers". -/
theorem scenario_one_amended :
    classifySku "dd1391-100" = ⟨"Nike", 95/100, "DD1391-100"⟩ ∧
    normalizeResult (some pandaSrcRes) =
      ⟨some "Nike", some "Nike Dunk Low Retro White Black Panda",
       some "Dunk Low", some "White Black Panda", "sneakers"⟩ :=
  ⟨rfl, by decide⟩
